import Mathlib

/-!
Verification of the narrative progression and memory-scoring core of the
"Into the Dark" visual-novel repository.

The development shallowly embeds the Python sources:

* `python_backend/story_engine.py` — `StoryEngine` (scene catalog, `make_choice`,
  `get_memory_percentages`, `get_memory_alignment`, `reset_game`);
* `python_backend/game_engine.py` — `GameEngine.make_choice`,
  `MemoryAnalytics.get_current_alignment`, `SaveManager` (`save_game`,
  `load_game`, `get_save_slots`, `_get_current_alignment`), `GameEngine.reset_game`.

Conventions of the embedding:

* Python ints are arbitrary precision, so counters are `Int` and scene ids `Nat`.
* Python dicts preserve insertion order; the engines create `memory_values`
  with exactly the keys kindness, obsession, truth, trust in that order and
  never add keys, so the dict is embedded as the structure `Memory` and its
  `items()` view as the ordered association list `Memory.items`.
* `float` arithmetic in `get_memory_percentages` is embedded over `ℚ`; at every
  integer input appearing in the claims the IEEE-double evaluation of
  `min (v / 100 * 100) 100` rounds to exactly the same value as the exact
  rational one, so the embedding is faithful there.
* File I/O (`SaveManager`) is embedded as an explicit store `Nat → Option SaveData`
  plus a boolean `io` parameter standing for whether the underlying write
  raised an exception (the Python code wraps writes in try/except and returns
  `False` on failure); wall-clock values (`timestamp`, `play_time`,
  `start_time`) are presentation data passed in as parameters or omitted.
* Display-only fields (choice text, consequence text, dialogue, backgrounds,
  audio, lighting, …) carry no semantics relevant to any verified property and
  are omitted from `Choice`/`SceneM`.
-/

/-- `MemoryType` enum from both engines: the four memory axes, declared in the
order kindness, obsession, truth, trust. -/
inductive MemoryType : Type where
  | kindness : MemoryType
  | obsession : MemoryType
  | truth : MemoryType
  | trust : MemoryType
deriving DecidableEq, Repr

/-- The `.value` string of each `MemoryType` enum member. -/
def MemoryType.value : MemoryType → String
  | .kindness => "kindness"
  | .obsession => "obsession"
  | .truth => "truth"
  | .trust => "trust"

/-- The `memory_values` dict of either engine: it always holds exactly the four
axis keys, created in declaration order and never extended. -/
structure Memory : Type where
  kindness : Int
  obsession : Int
  truth : Int
  trust : Int
deriving DecidableEq, Repr

/-- A fresh memory: all four counters zero (as built by `GameEngine.__init__`,
`GameEngine.reset_game`, and `GameState.__post_init__` of the story engine). -/
def Memory.fresh : Memory := ⟨0, 0, 0, 0⟩

/-- `memory_values.items()` — the dict view in insertion order. -/
def Memory.items (m : Memory) : List (String × Int) :=
  [("kindness", m.kindness), ("obsession", m.obsession),
   ("truth", m.truth), ("trust", m.trust)]

/-- `memory_values[axis] += amount` for an axis known to be a key (the engines
always index with a `MemoryType.value`, which is such a key). -/
def Memory.inc (m : Memory) : MemoryType → Int → Memory
  | .kindness, v => { m with kindness := m.kindness + v }
  | .obsession, v => { m with obsession := m.obsession + v }
  | .truth, v => { m with truth := m.truth + v }
  | .trust, v => { m with trust := m.trust + v }

/-- Sum of the four counters (used to state the accumulator conservation law). -/
def Memory.total (m : Memory) : Int :=
  m.kindness + m.obsession + m.truth + m.trust

/-- Python `max(items, key=lambda x: x[1])` over a dict-items list: scans left
to right and keeps the first element whose key value is maximal (a later
element replaces the best one only when strictly greater). Returns `none` on
the empty list, where Python would raise `ValueError`. -/
def pyMaxBySnd {α : Type} [LT α] [DecidableRel (· < · : α → α → Prop)]
    (l : List (String × α)) : Option (String × α) :=
  l.foldl
    (fun best x =>
      match best with
      | none => some x
      | some b => if b.2 < x.2 then some x else some b)
    none

/-- Python `max(values)` over a dict-values list (`none` on empty, where Python
raises). -/
def pyMaxValues (l : List Int) : Option Int :=
  l.foldl
    (fun best x =>
      match best with
      | none => some x
      | some b => if b < x then some x else some b)
    none

/-- The `alignment_map` dict of `MemoryAnalytics.get_current_alignment` and
`SaveManager._get_current_alignment` as a partial lookup. -/
def alignmentMap (axis : String) : Option String :=
  if axis = "kindness" then some "Kind"
  else if axis = "obsession" then some "Obsessed"
  else if axis = "truth" then some "Truth-Seeker"
  else if axis = "trust" then some "Trusting"
  else none

/-- `MemoryAnalytics.get_current_alignment` (game_engine.py, lines 126-144),
textually identical to `SaveManager._get_current_alignment` (lines 379-397):
`"Neutral"` on a falsy (empty) dict, `"Neutral"` when the maximum counter is
below 20, otherwise the label of the first axis attaining the maximum
(`alignment_map.get(dominant[0], "Balanced")`). -/
def getCurrentAlignment (items : List (String × Int)) : String :=
  match items with
  | [] => "Neutral"
  | _ :: _ =>
    match pyMaxValues (items.map Prod.snd), pyMaxBySnd items with
    | some maxValue, some dominant =>
      if maxValue < 20 then "Neutral"
      else (alignmentMap dominant.1).getD "Balanced"
    | _, _ => "Neutral"

/-- `StoryEngine.get_memory_percentages` (story_engine.py, lines 193-202):
`min((value / 100) * 100, 100.0)` per axis, iterating `MemoryType` in
declaration order; embedded over `ℚ`. -/
def getMemoryPercentages (m : Memory) : List (String × ℚ) :=
  [("kindness", min ((m.kindness : ℚ) / 100 * 100) 100),
   ("obsession", min ((m.obsession : ℚ) / 100 * 100) 100),
   ("truth", min ((m.truth : ℚ) / 100 * 100) 100),
   ("trust", min ((m.trust : ℚ) / 100 * 100) 100)]

/-- `StoryEngine.get_memory_alignment` (story_engine.py, lines 204-222): the
dominant percentage entry (first maximal wins), `"Neutral"` below 20, else the
label selected by the if/elif chain on the dominant axis name. -/
def getMemoryAlignment (m : Memory) : String :=
  match pyMaxBySnd (getMemoryPercentages m) with
  | none => "Neutral"
  | some dominant =>
    if dominant.2 < 20 then "Neutral"
    else if dominant.1 = "kindness" then "Kind"
    else if dominant.1 = "obsession" then "Obsessed"
    else if dominant.1 = "truth" then "Truth-Seeker"
    else if dominant.1 = "trust" then "Trusting"
    else "Balanced"

/-- Claim C3: both alignment classifiers break ties by the fixed axis
declaration order kindness, obsession, truth, trust — the first axis attaining
the maximum wins. In particular `{kindness:20, obsession:20, truth:0, trust:0}`
classifies as `"Kind"`; the further tie snapshots `{0,20,20,0}` and
`{0,0,20,20}` classify as `"Obsessed"` and `"Truth-Seeker"`, confirming the
priority order between each adjacent pair of axes. -/
theorem alignment_tie_break_first_axis_wins :
    getMemoryAlignment ⟨20, 20, 0, 0⟩ = "Kind" ∧
    getCurrentAlignment (Memory.items ⟨20, 20, 0, 0⟩) = "Kind" ∧
    getMemoryAlignment ⟨0, 20, 20, 0⟩ = "Obsessed" ∧
    getCurrentAlignment (Memory.items ⟨0, 20, 20, 0⟩) = "Obsessed" ∧
    getMemoryAlignment ⟨0, 0, 20, 20⟩ = "Truth-Seeker" ∧
    getCurrentAlignment (Memory.items ⟨0, 0, 20, 20⟩) = "Truth-Seeker" := by
  have h1 : pyMaxBySnd (getMemoryPercentages ⟨20, 20, 0, 0⟩) = some ("kindness", 20) := by
    norm_num [pyMaxBySnd, getMemoryPercentages, List.foldl]
  have h2 : pyMaxBySnd (getMemoryPercentages ⟨0, 20, 20, 0⟩) = some ("obsession", 20) := by
    norm_num [pyMaxBySnd, getMemoryPercentages, List.foldl]
  have h3 : pyMaxBySnd (getMemoryPercentages ⟨0, 0, 20, 20⟩) = some ("truth", 20) := by
    norm_num [pyMaxBySnd, getMemoryPercentages, List.foldl]
  refine ⟨?_, by decide, ?_, by decide, ?_, by decide⟩ <;>
    unfold getMemoryAlignment
  · rw [h1]; norm_num <;> decide
  · rw [h2]; norm_num <;> decide
  · rw [h3]; norm_num <;> decide

/-- Claim C4: the Neutral threshold of both classifiers is exactly 20 with a
strict less-than comparison: `{kindness:19, obsession:0, truth:0, trust:0}`
classifies as `"Neutral"` while `{kindness:20, obsession:0, truth:0, trust:0}`
classifies as `"Kind"`. -/
theorem alignment_neutral_threshold_twenty :
    getMemoryAlignment ⟨19, 0, 0, 0⟩ = "Neutral" ∧
    getCurrentAlignment (Memory.items ⟨19, 0, 0, 0⟩) = "Neutral" ∧
    getMemoryAlignment ⟨20, 0, 0, 0⟩ = "Kind" ∧
    getCurrentAlignment (Memory.items ⟨20, 0, 0, 0⟩) = "Kind" := by
  have h1 : pyMaxBySnd (getMemoryPercentages ⟨19, 0, 0, 0⟩) = some ("kindness", 19) := by
    norm_num [pyMaxBySnd, getMemoryPercentages, List.foldl]
  have h2 : pyMaxBySnd (getMemoryPercentages ⟨20, 0, 0, 0⟩) = some ("kindness", 20) := by
    norm_num [pyMaxBySnd, getMemoryPercentages, List.foldl]
  refine ⟨?_, by decide, ?_, by decide⟩ <;> unfold getMemoryAlignment
  · rw [h1]; norm_num <;> decide
  · rw [h2]; norm_num <;> decide

/-- A selectable option of a scene. Of the Python `Choice` dataclass only the
fields that affect engine state are kept: `memory_type`, `memory_value`,
`next_scene`; the display-only fields (`text`, `consequence_text`,
`condition`, `sound_effect`, `animation`) are omitted. Every choice in both
catalogs leaves `next_scene` at its default `None`. -/
structure Choice : Type where
  memory_type : MemoryType
  memory_value : Int
  next_scene : Option Nat := none
deriving DecidableEq, Repr

/-- A scene: id plus its choice list (display fields omitted). Shared between
the two engines, whose `Scene` classes agree on these fields. -/
structure SceneM : Type where
  scene_id : Nat
  choices : List Choice
deriving DecidableEq, Repr

/-- Never-selected fallback for list indexing; `make_choice` bounds-checks the
index before `scene.choices[choice_index]`, so this default is unreachable. -/
def dummyChoice : Choice := ⟨MemoryType.kindness, 0, none⟩

/-- The `GameEngine._load_scenes` catalog (game_engine.py, lines 439-649):
scenes 1-10, each with four choices; axis order per scene as in the source,
value 5 everywhere except scene 8 where every choice is worth 10. `none`
models a missing key (`self.scenes.get` returns `None`). -/
def gameScenes : Nat → Option SceneM
  | 1 => some ⟨1, [⟨.kindness, 5, none⟩, ⟨.obsession, 5, none⟩, ⟨.truth, 5, none⟩, ⟨.trust, 5, none⟩]⟩
  | 2 => some ⟨2, [⟨.kindness, 5, none⟩, ⟨.obsession, 5, none⟩, ⟨.truth, 5, none⟩, ⟨.trust, 5, none⟩]⟩
  | 3 => some ⟨3, [⟨.trust, 5, none⟩, ⟨.obsession, 5, none⟩, ⟨.kindness, 5, none⟩, ⟨.truth, 5, none⟩]⟩
  | 4 => some ⟨4, [⟨.truth, 5, none⟩, ⟨.obsession, 5, none⟩, ⟨.kindness, 5, none⟩, ⟨.trust, 5, none⟩]⟩
  | 5 => some ⟨5, [⟨.kindness, 5, none⟩, ⟨.obsession, 5, none⟩, ⟨.truth, 5, none⟩, ⟨.trust, 5, none⟩]⟩
  | 6 => some ⟨6, [⟨.kindness, 5, none⟩, ⟨.obsession, 5, none⟩, ⟨.truth, 5, none⟩, ⟨.trust, 5, none⟩]⟩
  | 7 => some ⟨7, [⟨.kindness, 5, none⟩, ⟨.obsession, 5, none⟩, ⟨.truth, 5, none⟩, ⟨.trust, 5, none⟩]⟩
  | 8 => some ⟨8, [⟨.kindness, 10, none⟩, ⟨.obsession, 10, none⟩, ⟨.truth, 10, none⟩, ⟨.trust, 10, none⟩]⟩
  | 9 => some ⟨9, [⟨.kindness, 5, none⟩, ⟨.obsession, 5, none⟩, ⟨.truth, 5, none⟩, ⟨.trust, 5, none⟩]⟩
  | 10 => some ⟨10, [⟨.kindness, 5, none⟩, ⟨.obsession, 5, none⟩, ⟨.truth, 5, none⟩, ⟨.trust, 5, none⟩]⟩
  | _ => none

/-- `len(self.scenes)` for the game engine catalog. -/
def numGameScenes : Nat := 10

/-- The `GameProgress` dataclass restricted to the fields the progression core
mutates; `play_time` (wall clock), `save_slots` and `settings` (unused by the
verified operations) are omitted. `choices_made` keeps the index as passed. -/
structure GameProgress : Type where
  current_scene : Nat
  current_act : Nat
  watched_cutscenes : List Nat
  memory_values : Memory
  choices_made : List (Nat × Int)
  achievements : List String
deriving DecidableEq, Repr

/-- The progress built by `GameEngine.__init__` (and by `reset_game`). -/
def freshProgress : GameProgress := ⟨1, 1, [], Memory.fresh, [], []⟩

/-- The completion achievement string built by
`GameEngine._handle_game_completion`. -/
def completionAchievement (alignment : String) : String :=
  "Completed the journey as " ++ alignment

/-- `GameEngine.make_choice` (game_engine.py, lines 655-696) together with the
state effects of `_handle_game_completion` (lines 698-717): reject and leave
the state untouched when the scene is missing or the index is out of range;
otherwise increment the chosen axis, append to `choices_made`, append the
scene to `watched_cutscenes` unless already present, then advance — to
`choice.next_scene` when truthy, else to `current_scene + 1` while below the
catalog size, else loop back to scene 1 and run the completion handler, which
classifies the final memory and records the completion achievement once.
Returns the Python success flag; the returned message, analytics tracking,
play-time update and autosave I/O carry no progression state. -/
def gameMakeChoice (p : GameProgress) (choice_index : Int) : Bool × GameProgress :=
  match gameScenes p.current_scene with
  | none => (false, p)
  | some scene =>
    if choice_index < 0 ∨ (scene.choices.length : Int) ≤ choice_index then (false, p)
    else
      let choice := scene.choices.getD choice_index.toNat dummyChoice
      let mv := p.memory_values.inc choice.memory_type choice.memory_value
      let cm := p.choices_made ++ [(p.current_scene, choice_index)]
      let wc := if p.current_scene ∈ p.watched_cutscenes then p.watched_cutscenes
                else p.watched_cutscenes ++ [p.current_scene]
      let nextOverride := choice.next_scene.getD 0
      if nextOverride ≠ 0 then
        (true, { p with current_scene := nextOverride, watched_cutscenes := wc,
                        memory_values := mv, choices_made := cm })
      else if p.current_scene < numGameScenes then
        (true, { p with current_scene := p.current_scene + 1, watched_cutscenes := wc,
                        memory_values := mv, choices_made := cm })
      else
        let alignment := getCurrentAlignment mv.items
        let ach := if completionAchievement alignment ∈ p.achievements then p.achievements
                   else p.achievements ++ [completionAchievement alignment]
        (true, { p with current_scene := 1, watched_cutscenes := wc,
                        memory_values := mv, choices_made := cm, achievements := ach })

/-- Folding `GameEngine.make_choice` over a list of choice indices. -/
def gameRun (p : GameProgress) (indices : List Int) : GameProgress :=
  indices.foldl (fun q i => (gameMakeChoice q i).2) p

/-- The `GameState` dataclass of story_engine.py. -/
structure StoryState : Type where
  current_scene : Nat
  watched_cutscenes : List Nat
  memory_values : Memory
  act_progression : Nat
deriving DecidableEq, Repr

/-- A new story-engine state (`GameState.__post_init__` fills the zero memory). -/
def freshStoryState : StoryState := ⟨1, [], Memory.fresh, 1⟩

/-- The `StoryEngine._load_scenes` catalog (story_engine.py, lines 62-137):
scenes 1-4 authored (same axis orders as the game engine), scenes 5-10
placeholders; every choice is worth 5. -/
def storyScenes : Nat → Option SceneM
  | 1 => some ⟨1, [⟨.kindness, 5, none⟩, ⟨.obsession, 5, none⟩, ⟨.truth, 5, none⟩, ⟨.trust, 5, none⟩]⟩
  | 2 => some ⟨2, [⟨.kindness, 5, none⟩, ⟨.obsession, 5, none⟩, ⟨.truth, 5, none⟩, ⟨.trust, 5, none⟩]⟩
  | 3 => some ⟨3, [⟨.trust, 5, none⟩, ⟨.obsession, 5, none⟩, ⟨.kindness, 5, none⟩, ⟨.truth, 5, none⟩]⟩
  | 4 => some ⟨4, [⟨.truth, 5, none⟩, ⟨.obsession, 5, none⟩, ⟨.kindness, 5, none⟩, ⟨.trust, 5, none⟩]⟩
  | 5 => some ⟨5, [⟨.kindness, 5, none⟩, ⟨.obsession, 5, none⟩, ⟨.truth, 5, none⟩, ⟨.trust, 5, none⟩]⟩
  | 6 => some ⟨6, [⟨.kindness, 5, none⟩, ⟨.obsession, 5, none⟩, ⟨.truth, 5, none⟩, ⟨.trust, 5, none⟩]⟩
  | 7 => some ⟨7, [⟨.kindness, 5, none⟩, ⟨.obsession, 5, none⟩, ⟨.truth, 5, none⟩, ⟨.trust, 5, none⟩]⟩
  | 8 => some ⟨8, [⟨.kindness, 5, none⟩, ⟨.obsession, 5, none⟩, ⟨.truth, 5, none⟩, ⟨.trust, 5, none⟩]⟩
  | 9 => some ⟨9, [⟨.kindness, 5, none⟩, ⟨.obsession, 5, none⟩, ⟨.truth, 5, none⟩, ⟨.trust, 5, none⟩]⟩
  | 10 => some ⟨10, [⟨.kindness, 5, none⟩, ⟨.obsession, 5, none⟩, ⟨.truth, 5, none⟩, ⟨.trust, 5, none⟩]⟩
  | _ => none

/-- `len(self.scenes)` for the story engine catalog. -/
def numStoryScenes : Nat := 10

/-- `StoryEngine.make_choice` (story_engine.py, lines 161-191): reject indices
outside `[0, 4)` before touching anything; then look up the current scene
(`none` models the `KeyError` that `self.scenes[...]` would raise on an
unknown id), increment the chosen axis, append the scene to
`watched_cutscenes` unless present, and advance — `choice.next_scene` when
truthy, else `current_scene + 1` while below the catalog size, else stay put.
The story engine keeps no choice log; the autosave I/O is stateless here. -/
def storyMakeChoice (s : StoryState) (choice_index : Int) : Option (Bool × StoryState) :=
  if choice_index < 0 ∨ (4 : Int) ≤ choice_index then some (false, s)
  else
    match storyScenes s.current_scene with
    | none => none
    | some scene =>
      let choice := scene.choices.getD choice_index.toNat dummyChoice
      let mv := s.memory_values.inc choice.memory_type choice.memory_value
      let wc := if s.current_scene ∈ s.watched_cutscenes then s.watched_cutscenes
                else s.watched_cutscenes ++ [s.current_scene]
      let nextOverride := choice.next_scene.getD 0
      let cur := if nextOverride ≠ 0 then nextOverride
                 else if s.current_scene < numStoryScenes then s.current_scene + 1
                 else s.current_scene
      some (true, ⟨cur, wc, mv, s.act_progression⟩)

/-- Folding `StoryEngine.make_choice` over a list of indices; `none` as soon
as a step raises. -/
def storyRun (s : StoryState) (indices : List Int) : Option StoryState :=
  indices.foldl (fun os i => os.bind fun q => (storyMakeChoice q i).map Prod.snd) (some s)

/-- Claim C1, counterexample: applying choice index 0 on every scene from
scene 1 through the catalog's last scene (ten choices) does NOT freeze
`current_scene_id` at a synthetic ending id — `GameEngine.make_choice` sets it
back to 1, which is the ordinary first catalog scene. -/
theorem full_run_returns_to_scene_one :
    (gameRun freshProgress (List.replicate 10 0)).current_scene = 1 ∧
    (gameScenes 1).isSome = true := by
  constructor <;> decide

/-- Claim C1, amended: starting fresh and applying choice index 0 on every
scene 1-10, `GameEngine.make_choice` runs its completion handler — the
recorded completion achievement carries exactly the alignment obtained by
classifying the final memory snapshot (here `"Kind"`, from the final snapshot
`{kindness:45, obsession:0, truth:5, trust:5}`) — but then sets
`current_scene` back to the ordinary first scene id 1 rather than to an
`Ended` state with a synthetic ending id; `StoryEngine.make_choice` instead
leaves `current_scene` frozen at the last ordinary scene id 10. (A synthetic
ending scene, id 999, exists only in the separate PyQt6 front-end engine.) -/
theorem full_run_completion_behaviour :
    (gameRun freshProgress (List.replicate 10 0)).current_scene = 1 ∧
    (gameRun freshProgress (List.replicate 10 0)).memory_values = ⟨45, 0, 5, 5⟩ ∧
    (gameRun freshProgress (List.replicate 10 0)).achievements =
      [completionAchievement
        (getCurrentAlignment (gameRun freshProgress (List.replicate 10 0)).memory_values.items)] ∧
    getCurrentAlignment (gameRun freshProgress (List.replicate 10 0)).memory_values.items =
      "Kind" ∧
    (storyRun freshStoryState (List.replicate 10 0)).map StoryState.current_scene = some 10 := by
  refine ⟨?_, ?_, ?_, ?_, ?_⟩ <;> decide

/-- Helper: every scene of the game catalog has exactly four choices. -/
theorem gameScenes_choices_length (n : Nat) (sc : SceneM)
    (h : gameScenes n = some sc) : sc.choices.length = 4 := by
  unfold gameScenes at h
  split at h <;> cases h <;> rfl

/-- Claim C2: for every state and every out-of-range index (negative or ≥ 4),
both `GameEngine.make_choice` and `StoryEngine.make_choice` report failure and
return the state completely unchanged — same scene, memory, choice log and
watched set; no partial mutation. -/
theorem invalid_choice_leaves_state_unchanged
    (p : GameProgress) (s : StoryState) (i : Int) (h : i < 0 ∨ 4 ≤ i) :
    gameMakeChoice p i = (false, p) ∧ storyMakeChoice s i = some (false, s) := by
  constructor
  · rcases hg : gameScenes p.current_scene with _ | scene
    · simp [gameMakeChoice, hg]
    · have hlen := gameScenes_choices_length _ _ hg
      have hcond : i < 0 ∨ (scene.choices.length : Int) ≤ i := by
        rcases h with h | h
        · exact Or.inl h
        · exact Or.inr (by rw [hlen] ; exact_mod_cast h)
      simp [gameMakeChoice, hg, hcond]
  · unfold storyMakeChoice
    rw [if_pos h]

/-- Witness for C2 at the fresh states with the indices 4 and -1 from the
claim. -/
theorem invalid_choice_leaves_state_unchanged_witness :
    (gameMakeChoice freshProgress 4 = (false, freshProgress) ∧
      storyMakeChoice freshStoryState 4 = some (false, freshStoryState)) ∧
    (gameMakeChoice freshProgress (-1) = (false, freshProgress) ∧
      storyMakeChoice freshStoryState (-1) = some (false, freshStoryState)) :=
  ⟨invalid_choice_leaves_state_unchanged freshProgress freshStoryState 4 (by norm_num),
   invalid_choice_leaves_state_unchanged freshProgress freshStoryState (-1) (by norm_num)⟩

/-- The increment one axis receives from one applied choice: the sum of the
four counters grows by exactly the chosen choice's `memory_value`. -/
theorem Memory.total_inc (m : Memory) (t : MemoryType) (v : Int) :
    (m.inc t v).total = m.total + v := by
  cases t <;> simp [Memory.inc, Memory.total] <;> ring

/-- The `memory_value` of the choice at index `i` of scene `n` of the game
catalog (0 when the scene is missing — unreachable along valid runs). -/
def choiceValAt (n : Nat) (i : Int) : Int :=
  match gameScenes n with
  | some sc => (sc.choices.getD i.toNat dummyChoice).memory_value
  | none => 0

/-- The `memory_value` of each choice selected along a run, in order. -/
def valsAlong : GameProgress → List Int → List Int
  | _, [] => []
  | p, i :: is => choiceValAt p.current_scene i :: valsAlong (gameMakeChoice p i).2 is

/-- One valid step of `GameEngine.make_choice`: from any state whose scene id
is in the catalog range, a choice index in `[0, 4)` succeeds, adds exactly the
selected choice's `memory_value` to the counter total, and keeps the scene id
in the catalog range. -/
theorem gameMakeChoice_valid_step (p : GameProgress) (i : Int)
    (h1 : 1 ≤ p.current_scene) (h2 : p.current_scene ≤ 10) (h3 : 0 ≤ i) (h4 : i < 4) :
    (gameMakeChoice p i).1 = true ∧
    (gameMakeChoice p i).2.memory_values.total =
      p.memory_values.total + choiceValAt p.current_scene i ∧
    1 ≤ (gameMakeChoice p i).2.current_scene ∧
    (gameMakeChoice p i).2.current_scene ≤ 10 := by
  obtain ⟨cs, ca, w, mv, cm, ach⟩ := p
  simp only at h1 h2 ⊢
  interval_cases cs <;> interval_cases i <;>
    refine ⟨?_, ?_, ?_, ?_⟩ <;>
      simp [gameMakeChoice, gameScenes, choiceValAt, Memory.total_inc, numGameScenes]

/-- Accumulator conservation along a run of valid choices, generalized over
the starting state. -/
theorem gameRun_total_aux (is : List Int) :
    ∀ p : GameProgress, 1 ≤ p.current_scene → p.current_scene ≤ 10 →
      (∀ i ∈ is, 0 ≤ i ∧ i < 4) →
      (gameRun p is).memory_values.total = p.memory_values.total + (valsAlong p is).sum := by
  induction is with
  | nil =>
    intro p h1 h2 h3
    simp [gameRun, valsAlong]
  | cons i is ih =>
    intro p h1 h2 h3
    have hi := h3 i (by simp)
    obtain ⟨hok, htot, hlo, hhi⟩ := gameMakeChoice_valid_step p i h1 h2 hi.1 hi.2
    have hrest : ∀ j ∈ is, 0 ≤ j ∧ j < 4 := fun j hj => h3 j (by simp [hj])
    have hrun : gameRun p (i :: is) = gameRun (gameMakeChoice p i).2 is := by
      simp [gameRun]
    rw [hrun, ih _ hlo hhi hrest, htot]
    simp [valsAlong]
    ring

/-- `storyRun` from an option start, unfolded one step. -/
theorem storyRun_cons (s : StoryState) (i : Int) (is : List Int) :
    storyRun s (i :: is) =
      ((storyMakeChoice s i).map Prod.snd).elim none (fun t => storyRun t is) := by
  cases hst : storyMakeChoice s i with
  | none =>
    simp only [storyRun, List.foldl, Option.bind, hst, Option.map_none]
    induction is with
    | nil => rfl
    | cons j js ihj => simpa [List.foldl] using ihj
  | some r => simp [storyRun, hst]

/-- The `memory_value` of the choice at index `i` of scene `n` of the story
catalog (0 when the scene is missing — unreachable along valid runs). -/
def storyChoiceValAt (n : Nat) (i : Int) : Int :=
  match storyScenes n with
  | some sc => (sc.choices.getD i.toNat dummyChoice).memory_value
  | none => 0

/-- The `memory_value` of each choice selected along a story run, in order
(the run is cut short at a raising step, which valid runs never hit). -/
def storyValsAlong : StoryState → List Int → List Int
  | _, [] => []
  | s, i :: is =>
    storyChoiceValAt s.current_scene i ::
      match storyMakeChoice s i with
      | some r => storyValsAlong r.2 is
      | none => []

/-- One valid step of `StoryEngine.make_choice`: from any state whose scene id
is in the catalog range, a choice index in `[0, 4)` succeeds (no exception),
adds exactly the selected choice's `memory_value` to the counter total, and
keeps the scene id in the catalog range. -/
theorem storyMakeChoice_valid_step (s : StoryState) (i : Int)
    (h1 : 1 ≤ s.current_scene) (h2 : s.current_scene ≤ 10) (h3 : 0 ≤ i) (h4 : i < 4) :
    ∃ t : StoryState, storyMakeChoice s i = some (true, t) ∧
      t.memory_values.total =
        s.memory_values.total + storyChoiceValAt s.current_scene i ∧
      1 ≤ t.current_scene ∧ t.current_scene ≤ 10 := by
  obtain ⟨cs, w, mv, act⟩ := s
  simp only at h1 h2 ⊢
  interval_cases cs <;> interval_cases i <;>
    refine ⟨_, rfl, ?_, ?_, ?_⟩ <;>
      simp [storyMakeChoice, storyScenes, storyChoiceValAt, Memory.total_inc, numStoryScenes]

/-- Accumulator conservation along a story run of valid choices, generalized
over the starting state. -/
theorem storyRun_total_aux (is : List Int) :
    ∀ s : StoryState, 1 ≤ s.current_scene → s.current_scene ≤ 10 →
      (∀ i ∈ is, 0 ≤ i ∧ i < 4) →
      ∃ t : StoryState, storyRun s is = some t ∧
        t.memory_values.total = s.memory_values.total + (storyValsAlong s is).sum ∧
        1 ≤ t.current_scene ∧ t.current_scene ≤ 10 := by
  induction is with
  | nil =>
    intro s h1 h2 h3
    exact ⟨s, rfl, by simp [storyValsAlong], h1, h2⟩
  | cons i is ih =>
    intro s h1 h2 h3
    have hi := h3 i (by simp)
    obtain ⟨t, hst, htot, hlo, hhi⟩ := storyMakeChoice_valid_step s i h1 h2 hi.1 hi.2
    have hrest : ∀ j ∈ is, 0 ≤ j ∧ j < 4 := fun j hj => h3 j (by simp [hj])
    obtain ⟨u, hru, hutot, hulo, huhi⟩ := ih t hlo hhi hrest
    refine ⟨u, ?_, ?_, hulo, huhi⟩
    · rw [storyRun_cons, hst]
      simpa using hru
    · rw [hutot, htot]
      simp [storyValsAlong, hst]
      ring

/-- Claim C5: for every sequence of valid choice indices applied from the
fresh (all-zero) state, in each engine the sum of the four memory counters
after the run equals the sum of the `memory_value` amounts of the choices
applied along that engine's run — every increment is applied exactly once,
never dropped or double-counted (`GameEngine.make_choice` and
`StoryEngine.make_choice` both). -/
theorem memory_sum_conservation (is : List Int) (h : ∀ i ∈ is, 0 ≤ i ∧ i < 4) :
    (gameRun freshProgress is).memory_values.total = (valsAlong freshProgress is).sum ∧
    ∃ t : StoryState, storyRun freshStoryState is = some t ∧
      t.memory_values.total = (storyValsAlong freshStoryState is).sum := by
  constructor
  · have := gameRun_total_aux is freshProgress (by decide) (by decide) h
    simpa [freshProgress, Memory.fresh, Memory.total] using this
  · obtain ⟨t, hrun, htot, -, -⟩ :=
      storyRun_total_aux is freshStoryState (by decide) (by decide) h
    refine ⟨t, hrun, ?_⟩
    rw [htot]
    simp [freshStoryState, Memory.fresh, Memory.total]

/-- Witness for C5: the four-choice run `[0, 1, 2, 3]` from the fresh states
of both engines. -/
theorem memory_sum_conservation_witness :
    (gameRun freshProgress [0, 1, 2, 3]).memory_values.total =
      (valsAlong freshProgress [0, 1, 2, 3]).sum ∧
    ∃ t : StoryState, storyRun freshStoryState [0, 1, 2, 3] = some t ∧
      t.memory_values.total = (storyValsAlong freshStoryState [0, 1, 2, 3]).sum :=
  memory_sum_conservation [0, 1, 2, 3] (by decide)

/-- `GameEngine.make_choice` either keeps `watched_cutscenes` unchanged or
appends the current scene when it is not yet present. -/
theorem gameMakeChoice_watched (p : GameProgress) (i : Int) :
    (gameMakeChoice p i).2.watched_cutscenes = p.watched_cutscenes ∨
    ((gameMakeChoice p i).2.watched_cutscenes =
        p.watched_cutscenes ++ [p.current_scene] ∧
      p.current_scene ∉ p.watched_cutscenes) := by
  rcases hg : gameScenes p.current_scene with _ | scene
  · simp [gameMakeChoice, hg]
  · simp only [gameMakeChoice, hg]
    split_ifs with h1 h2 h3 h4 h5 h6 h7 <;> simp_all

/-- `StoryEngine.make_choice` has the same watched-set behaviour. -/
theorem storyMakeChoice_watched (s : StoryState) (i : Int) (b : Bool) (t : StoryState)
    (h : storyMakeChoice s i = some (b, t)) :
    t.watched_cutscenes = s.watched_cutscenes ∨
    (t.watched_cutscenes = s.watched_cutscenes ++ [s.current_scene] ∧
      s.current_scene ∉ s.watched_cutscenes) := by
  unfold storyMakeChoice at h
  by_cases h1 : i < 0 ∨ 4 ≤ i
  · rw [if_pos h1] at h
    cases h
    left
    rfl
  · rw [if_neg h1] at h
    rcases hg : storyScenes s.current_scene with _ | scene <;> rw [hg] at h
    · cases h
    · by_cases hw : s.current_scene ∈ s.watched_cutscenes
      · left
        cases h
        simp [hw]
      · right
        cases h
        simp [hw]

/-- Appending a fresh element preserves `Nodup`. -/
theorem nodup_append_singleton {l : List Nat} {c : Nat}
    (h : l.Nodup) (hc : c ∉ l) : (l ++ [c]).Nodup := by
  simp [List.nodup_append, h, hc]

/-- One game step preserves distinctness of the watched list. -/
theorem gameMakeChoice_watched_nodup (p : GameProgress) (i : Int)
    (h : p.watched_cutscenes.Nodup) :
    ((gameMakeChoice p i).2.watched_cutscenes).Nodup := by
  rcases gameMakeChoice_watched p i with hw | ⟨hw, hmem⟩
  · rw [hw]; exact h
  · rw [hw]; exact nodup_append_singleton h hmem

/-- One story step preserves distinctness of the watched list. -/
theorem storyMakeChoice_watched_nodup (s : StoryState) (i : Int) (b : Bool) (t : StoryState)
    (hst : storyMakeChoice s i = some (b, t)) (h : s.watched_cutscenes.Nodup) :
    t.watched_cutscenes.Nodup := by
  rcases storyMakeChoice_watched s i b t hst with hw | ⟨hw, hmem⟩
  · rw [hw]; exact h
  · rw [hw]; exact nodup_append_singleton h hmem

/-- Distinctness of the watched list is preserved by whole game runs. -/
theorem gameRun_watched_nodup (is : List Int) :
    ∀ p : GameProgress, p.watched_cutscenes.Nodup →
      ((gameRun p is).watched_cutscenes).Nodup := by
  induction is with
  | nil => intro p h; simpa [gameRun] using h
  | cons i is ih =>
    intro p h
    have hrun : gameRun p (i :: is) = gameRun (gameMakeChoice p i).2 is := by
      simp [gameRun]
    rw [hrun]
    exact ih _ (gameMakeChoice_watched_nodup p i h)

/-- Distinctness of the watched list is preserved by whole story runs. -/
theorem storyRun_watched_nodup (is : List Int) :
    ∀ s : StoryState, s.watched_cutscenes.Nodup →
      ∀ t : StoryState, storyRun s is = some t → t.watched_cutscenes.Nodup := by
  induction is with
  | nil =>
    intro s h t ht
    simp only [storyRun, List.foldl] at ht
    cases ht
    exact h
  | cons i is ih =>
    intro s h t ht
    rw [storyRun_cons] at ht
    cases hst : storyMakeChoice s i with
    | none => rw [hst] at ht; cases ht
    | some r =>
      rw [hst] at ht
      exact ih r.2 (storyMakeChoice_watched_nodup s i r.1 r.2 (by rw [hst]) h) t ht

/-- Claim C10: after every sequence of `make_choice` calls from a fresh state,
the watched-cutscenes list contains no duplicate scene ids — both engines
check membership before appending, so replaying a scene can never inflate
completion reporting. -/
theorem watched_cutscenes_no_duplicates (is : List Int) :
    ((gameRun freshProgress is).watched_cutscenes).Nodup ∧
    ∀ t : StoryState, storyRun freshStoryState is = some t →
      t.watched_cutscenes.Nodup :=
  ⟨gameRun_watched_nodup is freshProgress (by decide),
   storyRun_watched_nodup is freshStoryState (by decide)⟩

/-- Witness for C10: the run `[0, 0, 1]` revisits no scene; the story engine
reaches scene 4 with watched list `[1, 2, 3]`. -/
theorem watched_cutscenes_no_duplicates_witness :
    ((gameRun freshProgress [0, 0, 1]).watched_cutscenes).Nodup ∧
    (⟨4, [1, 2, 3], ⟨10, 5, 0, 0⟩, 1⟩ : StoryState).watched_cutscenes.Nodup :=
  ⟨(watched_cutscenes_no_duplicates [0, 0, 1]).1,
   (watched_cutscenes_no_duplicates [0, 0, 1]).2 ⟨4, [1, 2, 3], ⟨10, 5, 0, 0⟩, 1⟩ (by decide)⟩

/-- One save-slot file as written by `SaveManager.save_game` (game_engine.py,
lines 300-323): schema version, wall-clock timestamp, the full serialized
progress, and the denormalized metadata (current scene and alignment; the
float `play_time` metadata is wall-clock presentation data and is omitted).
JSON serialization of the modelled fields (ints, strings, lists, the
four-key memory dict) is lossless, so the stored progress is kept
structurally. -/
structure SaveData : Type where
  version : String
  timestamp : String
  progress : GameProgress
  meta_current_scene : Nat
  meta_alignment : String
deriving DecidableEq, Repr

/-- The save directory: one optional record per slot number. -/
def SaveStore : Type := Nat → Option SaveData

/-- The save directory with no save files. -/
def emptyStore : SaveStore := fun _ => none

/-- `SaveManager.max_save_slots`. -/
def maxSaveSlots : Nat := 10

/-- `SaveManager.save_game`: on a successful write (`io = true`) the slot file
is replaced by the new record and `True` is returned; when the underlying
write raises (`io = false`, e.g. disk full), the exception is caught, nothing
is stored, and `False` is returned. `SaveManager._get_current_alignment` is
textually identical to `MemoryAnalytics.get_current_alignment`, embedded once
as `getCurrentAlignment`. -/
def saveGame (store : SaveStore) (p : GameProgress) (slot : Nat) (ts : String)
    (io : Bool) : Bool × SaveStore :=
  if io then
    (true, fun s =>
      if s = slot then
        some ⟨"1.0.0", ts, p, p.current_scene, getCurrentAlignment p.memory_values.items⟩
      else store s)
  else (false, store)

/-- `SaveManager.load_game` (game_engine.py, lines 325-345): `None` when the
slot file does not exist, otherwise the `progress` record of the stored file
(reading back a record written by `save_game` cannot hit the exception
branch). -/
def loadGame (store : SaveStore) (slot : Nat) : Option GameProgress :=
  (store slot).map SaveData.progress

/-- One entry of the `SaveManager.get_save_slots` result (the float
`play_time` field is again omitted). `timestamp = none` stands for the
`None` placeholder of an empty slot. -/
structure SlotInfo : Type where
  slot : Nat
  timestamp : Option String
  current_scene : Nat
  alignment : String
deriving DecidableEq, Repr

/-- `SaveManager.get_save_slots` (game_engine.py, lines 347-377): for each of
the `max_save_slots` slot numbers in order, either the metadata summary of the
existing save file or the explicit empty marker
`{slot, timestamp: None, current_scene: 0, alignment: "Empty"}`. (A slot file
that exists but fails to parse is skipped with a logged error; such files
cannot occur in a store written through `save_game`, and none exist in an
empty directory.) -/
def getSaveSlots (store : SaveStore) : List SlotInfo :=
  (List.range maxSaveSlots).map fun slot =>
    match store slot with
    | some d => ⟨slot, some d.timestamp, d.meta_current_scene, d.meta_alignment⟩
    | none => ⟨slot, none, 0, "Empty"⟩

/-- Claim C6: saving any progression state to any slot and then loading that
slot reproduces the state in full — in particular an equal
`current_scene`, an equal four-counter memory snapshot and an equal,
order-preserved choice log — whenever the save reported success. -/
theorem save_load_round_trip (store : SaveStore) (p : GameProgress) (slot : Nat)
    (ts : String) (io : Bool) (h : (saveGame store p slot ts io).1 = true) :
    loadGame (saveGame store p slot ts io).2 slot = some p := by
  cases io
  · simp [saveGame] at h
  · simp [saveGame, loadGame]

/-- Witness for C6: slot 3 (the slot named in the spec), an empty directory, a
two-choice progress. -/
theorem save_load_round_trip_witness :
    loadGame (saveGame emptyStore (gameRun freshProgress [0, 1]) 3 "2025-01-01T00:00:00" true).2 3 =
      some (gameRun freshProgress [0, 1]) :=
  save_load_round_trip emptyStore (gameRun freshProgress [0, 1]) 3 "2025-01-01T00:00:00" true rfl

/-- Claim C9: `get_save_slots()` on an empty save directory returns exactly
one summary per slot — all `max_save_slots` of them, slot numbers 0 through
9 in order — each carrying the explicit empty marker `alignment = "Empty"`
(and it is a total function: no exception is possible, the per-slot
read errors are caught inside the loop). -/
theorem get_save_slots_empty_directory :
    getSaveSlots emptyStore =
      [⟨0, none, 0, "Empty"⟩, ⟨1, none, 0, "Empty"⟩, ⟨2, none, 0, "Empty"⟩,
       ⟨3, none, 0, "Empty"⟩, ⟨4, none, 0, "Empty"⟩, ⟨5, none, 0, "Empty"⟩,
       ⟨6, none, 0, "Empty"⟩, ⟨7, none, 0, "Empty"⟩, ⟨8, none, 0, "Empty"⟩,
       ⟨9, none, 0, "Empty"⟩] ∧
    (getSaveSlots emptyStore).length = maxSaveSlots := by
  constructor <;> rfl

/-- `GameEngine.reset_game` (game_engine.py, lines 747-764): discard the prior
progress, rebuild the initial `GameProgress` (zero memory, scene 1, empty
collections), reset analytics and the play-time origin (not modelled), and
return the result of autosaving the fresh progress to slot 0. -/
def resetGame (prior : GameProgress) (store : SaveStore) (ts : String) (io : Bool) :
    GameProgress × Bool × SaveStore :=
  let p := freshProgress
  let r := saveGame store p 0 ts io
  (p, r.1, r.2)

/-- `StoryEngine.reset_game` (story_engine.py, lines 235-243): rebuild the
initial `GameState` and return the result of `save_game` (the story engine
writes one fixed save file; only the success flag matters here). -/
def storyResetGame (prior : StoryState) (io : Bool) : StoryState × Bool :=
  (freshStoryState, io)

/-- Claim C7, counterexample: `reset_game` does NOT return success
unconditionally — when the autosave write fails, both engines report
failure (here from a non-fresh prior state). -/
theorem reset_reports_save_failure :
    (resetGame (gameRun freshProgress [0]) emptyStore "2025-01-01T00:00:00" false).2.1 = false ∧
    (storyResetGame ((storyRun freshStoryState [0]).getD freshStoryState) false).2 = false := by
  constructor <;> rfl

/-- Claim C7, amended: `reset_game` called in any prior state rebuilds the
initial state — memory snapshot `{kindness:0, obsession:0, truth:0, trust:0}`,
`current_scene = 1` (the catalog's first scene id), empty watched set and
empty choice log — and returns the success flag of the autosave of that fresh
state, which is `True` exactly when the underlying write succeeds. -/
theorem reset_resets_state_returns_save_result (prior : GameProgress)
    (sPrior : StoryState) (store : SaveStore) (ts : String) (io : Bool) :
    (resetGame prior store ts io).1 = freshProgress ∧
    (resetGame prior store ts io).1.memory_values = ⟨0, 0, 0, 0⟩ ∧
    (resetGame prior store ts io).1.current_scene = 1 ∧
    (gameScenes 1).isSome = true ∧
    (resetGame prior store ts io).1.watched_cutscenes = [] ∧
    (resetGame prior store ts io).1.choices_made = [] ∧
    (resetGame prior store ts io).2.1 = io ∧
    (storyResetGame sPrior io).1 = freshStoryState ∧
    (storyResetGame sPrior io).2 = io := by
  cases io <;>
    simp [resetGame, storyResetGame, saveGame, freshProgress, freshStoryState, Memory.fresh,
      gameScenes]

/-- `memory_values[key] += amount` as Python executes it on a dict: a
`KeyError` (`none`) when the key is absent — nothing modified — and otherwise
the unconditional in-place addition, whatever the sign of the amount. This is
the entirety of the "increment" operation in both engines (game_engine.py
lines 664-666, story_engine.py lines 172-174); no validation precedes it. -/
def dictIncrement (d : List (String × Int)) (key : String) (amount : Int) :
    Option (List (String × Int)) :=
  if d.any (fun kv => kv.1 == key) then
    some (d.map fun kv => if kv.1 = key then (kv.1, kv.2 + amount) else kv)
  else none

/-- Claim C8, counterexample: incrementing a memory counter with the negative
amount -5 does NOT fail with `InvalidAmount` — the update is applied and the
counter goes negative. -/
theorem negative_increment_not_rejected :
    dictIncrement Memory.fresh.items "kindness" (-5) =
      some [("kindness", -5), ("obsession", 0), ("truth", 0), ("trust", 0)] := by
  decide

/-- Claim C8, amended: the engines' memory update is an unvalidated dict
increment. For every amount — negative included — and every defined axis it
succeeds and adds the amount to that axis (no `InvalidAmount` error exists);
only an axis name outside the four defined keys fails, as an uncaught
`KeyError` rather than a reported `InvalidAxis`, and in that case no counter
is modified. In-engine calls always use a `MemoryType.value` key, so the
`KeyError` branch is unreachable during play. -/
theorem unvalidated_dict_increment (m : Memory) (t : MemoryType) (amount : Int) :
    dictIncrement m.items t.value amount = some ((m.inc t amount).items) ∧
    dictIncrement m.items "charisma" amount = none := by
  constructor
  · cases t <;>
      simp [dictIncrement, Memory.items, Memory.inc, MemoryType.value]
  · simp [dictIncrement, Memory.items]
